import Mathlib

/-!
Verification development for the solana-trading-bots repository.

Shallow embedding of the state and operations of:
* `src/trading-bot/optimized_rent_spot_bot.py` (`TokenTracker`,
  `OptimizedRentSpotBot.handle_new_token`, `handle_price_update`),
* `src/trading-bot/trade_tracker.py` (`TradeTracker`),
* `src/trading-bot/optimized_websocket_client.py` (`start_monitoring` backoff),
* `src/ubuntu/RentSpotBot/src/profit_tracker.py` (`ProfitTracker`),
* `src/ubuntu/RentSpotBot/src/batch_burner.py` (`BatchBurner`).

Python `Decimal` values are modelled as `ℚ` (exact rational arithmetic);
`None`-able numeric fields as `Option ℚ`, with Python truthiness (`None` and
`0` are falsy) made explicit where the source branches on truthiness.
Wall-clock timestamps are threaded as explicit `now : ℚ` parameters.
External I/O results (order submission, RPC) are threaded as explicit
oracle parameters.
-/

namespace SolanaBots

/-- Python truthiness of an optional numeric value: `None` and `0` are falsy. -/
def optFalsy (o : Option ℚ) : Bool :=
  match o with
  | none => true
  | some x => x == 0

/-- One constructor per `reason` string produced by `TokenTracker`
(`optimized_rent_spot_bot.py`), carrying the numeric payload interpolated
into the source's f-string. -/
inductive SellReason where
  | stopLoss (cumulativeLoss : ℚ)
  | trailingStop
  | autoBuyback (multiple : ℚ)
  | mcapTarget (usdMcap : ℚ)
deriving Repr, DecidableEq

/-- Result dictionary of `TokenTracker.update` / `_check_profit_taking`:
either `should_sell = False`, or `should_sell = True` with a sell
percentage and a reason. -/
inductive Decision where
  | hold
  | sell (percentage : ℕ) (reason : SellReason)
deriving Repr, DecidableEq

/-- State of `TokenTracker.__init__` (`src/trading-bot/optimized_rent_spot_bot.py`,
lines 31-59).  History lists are kept oldest-first (Python appends at the
tail and pops index 0).  The fields `volume_history`, `profit_stage`,
`last_sell_mcap`, `created_at`, `last_update` and
`trailing_stop_activated` are never read by any of the modelled logic
(`update` is only ever called without a `volume` argument) and are omitted. -/
structure TokenTracker where
  tokenMint : String
  priceHistory : List ℚ
  mcapHistory : List ℚ
  tradeAmount : ℚ
  initialMcap : ℚ
  currentMcap : ℚ
  entryMcap : Option ℚ
  peakMcap : ℚ
  entryPrice : Option ℚ
  cumulativeLoss : ℚ
  stopLossThreshold : ℚ
  trailingStopPrice : Option ℚ
  trailingStopPercentage : ℚ
  solPriceUsd : ℚ
  volatilityWindow : ℕ
  minTrailingStop : ℚ
  maxTrailingStop : ℚ
deriving Repr, DecidableEq

/-- `TokenTracker(initial_mcap, token_mint)` constructor defaults. -/
def mkTokenTracker (initialMcap : ℚ) (tokenMint : String) : TokenTracker :=
  { tokenMint := tokenMint
    priceHistory := []
    mcapHistory := []
    tradeAmount := 1/100
    initialMcap := initialMcap
    currentMcap := initialMcap
    entryMcap := none
    peakMcap := initialMcap
    entryPrice := none
    cumulativeLoss := 0
    stopLossThreshold := 1/10
    trailingStopPrice := none
    trailingStopPercentage := 10
    solPriceUsd := 256
    volatilityWindow := 10
    minTrailingStop := 5
    maxTrailingStop := 20 }

/-- The volatility computed by `TokenTracker._adjust_trailing_stop`: mean
absolute percent change over the last `volatility_window` prices. -/
def recentVolatility (t : TokenTracker) : ℚ :=
  let recent := t.priceHistory.drop (t.priceHistory.length - t.volatilityWindow)
  let returns := List.zipWith (fun cur prev => (cur / prev - 1) * 100) (recent.drop 1) recent
  (returns.map (fun r => |r|)).sum / (returns.length : ℚ)

/-- `TokenTracker._adjust_trailing_stop(current_price)`.  Returns early when
fewer than `volatility_window` samples exist; otherwise recomputes
`trailing_stop_percentage` (clamped between the min and the max) and
reassigns `trailing_stop_price` exactly when the current one is falsy or
`current_price` strictly exceeds it. -/
def adjustTrailingStop (t : TokenTracker) (currentPrice : ℚ) : TokenTracker :=
  if t.priceHistory.length < t.volatilityWindow then t
  else
    let pct := max t.minTrailingStop (min t.maxTrailingStop (recentVolatility t * 2))
    let t' := { t with trailingStopPercentage := pct }
    match t.trailingStopPrice with
    | none => { t' with trailingStopPrice := some (currentPrice * (1 - pct / 100)) }
    | some s =>
      if s = 0 ∨ s < currentPrice then
        { t' with trailingStopPrice := some (currentPrice * (1 - pct / 100)) }
      else t'

/-- `TokenTracker._check_trailing_stop(current_price)`.  Mutates
`cumulative_loss` when price is below a truthy entry price, so the updated
tracker is returned along with the boolean. -/
def checkTrailingStop (t : TokenTracker) (currentPrice : ℚ) : TokenTracker × Bool :=
  if optFalsy t.trailingStopPrice then (t, false)
  else
    match t.entryPrice with
    | some e =>
      if e ≠ 0 ∧ currentPrice < e then
        let t' := { t with
          cumulativeLoss := t.cumulativeLoss + (e - currentPrice) * t.tradeAmount }
        if t'.cumulativeLoss ≥ t'.stopLossThreshold then (t', true)
        else (t', decide (currentPrice ≤ (t'.trailingStopPrice.getD 0)))
      else (t, decide (currentPrice ≤ (t.trailingStopPrice.getD 0)))
    | none => (t, decide (currentPrice ≤ (t.trailingStopPrice.getD 0)))

/-- The `auto_buyback` / `sell_mcap_usd` parameters that
`TokenTracker._check_profit_taking` reads off the bot instance fetched from
the Streamlit session state (`_get_bot_instance`); `none` models an absent
bot instance. -/
structure BotCfg where
  autoBuyback : Bool
  sellMcapUsd : ℚ
deriving Repr, DecidableEq

/-- `TokenTracker._check_profit_taking()`. -/
def checkProfitTaking (bot : Option BotCfg) (t : TokenTracker) : Decision :=
  if optFalsy t.entryMcap then Decision.hold
  else
    match bot with
    | none => Decision.hold
    | some b =>
      let mcapMultiple := t.currentMcap / t.entryMcap.getD 0
      let usdMcap := t.currentMcap * t.solPriceUsd
      if b.autoBuyback ∧ mcapMultiple ≥ 2 then
        Decision.sell 50 (SellReason.autoBuyback mcapMultiple)
      else if usdMcap ≥ b.sellMcapUsd then
        Decision.sell 99 (SellReason.mcapTarget usdMcap)
      else Decision.hold

/-- Tail of `TokenTracker.update` after the stop-loss early return:
trailing-stop adjustment on a new mcap peak, trailing-stop check, then
profit taking. -/
def updateTail (bot : Option BotCfg) (t : TokenTracker) (oldPeak price : ℚ) :
    TokenTracker × Decision :=
  let t1 := if t.peakMcap > oldPeak ∧ ¬ optFalsy t.entryPrice
            then adjustTrailingStop t price else t
  let r := checkTrailingStop t1 price
  if r.2 then (r.1, Decision.sell 99 SellReason.trailingStop)
  else (r.1, checkProfitTaking bot r.1)

/-- `TokenTracker.update(mcap, price)` (no `volume` argument, matching its
only call site in `handle_price_update`).  Returns the mutated tracker and
the decision dictionary. -/
def TokenTracker.update (bot : Option BotCfg) (t : TokenTracker) (mcap price : ℚ) :
    TokenTracker × Decision :=
  let ph := t.priceHistory ++ [price]
  let mh := t.mcapHistory ++ [mcap]
  let ph' := if ph.length > 30 then ph.drop 1 else ph
  let mh' := if ph.length > 30 then mh.drop 1 else mh
  let oldPeak := t.peakMcap
  let t1 : TokenTracker :=
    { t with priceHistory := ph', mcapHistory := mh',
             currentMcap := mcap, peakMcap := max t.peakMcap mcap }
  let t2 := if optFalsy t1.entryPrice then { t1 with entryPrice := some price } else t1
  let e := t2.entryPrice.getD 0
  if price < e then
    let currentLoss := (e - price) * t2.tradeAmount
    if currentLoss > 0 then
      let t3 := { t2 with cumulativeLoss := currentLoss }
      if t3.cumulativeLoss ≥ t3.stopLossThreshold then
        (t3, Decision.sell 99 (SellReason.stopLoss t3.cumulativeLoss))
      else updateTail bot t3 oldPeak price
    else updateTail bot t2 oldPeak price
  else updateTail bot t2 oldPeak price

/-! Python `dict` and `set` helpers: dictionaries as insertion-ordered
association lists with unique keys, sets as insertion-ordered duplicate-free
lists. -/

/-- `d[k]` lookup. -/
def dictGet {α : Type} (l : List (String × α)) (k : String) : Option α :=
  (l.find? (fun p => p.1 == k)).map Prod.snd

/-- `d[k] = v` assignment: overwrite in place if the key exists, else append. -/
def dictSet {α : Type} (l : List (String × α)) (k : String) (v : α) :
    List (String × α) :=
  if (dictGet l k).isSome then l.map (fun p => if p.1 == k then (k, v) else p)
  else l ++ [(k, v)]

/-- `del d[k]` / `s.remove(k)`. -/
def dictErase {α : Type} (l : List (String × α)) (k : String) : List (String × α) :=
  l.filter (fun p => ¬ p.1 == k)

/-- `s.add(x)` on a Python set. -/
def setInsert (l : List String) (x : String) : List String :=
  if x ∈ l then l else l ++ [x]

/-! ### `OptimizedRentSpotBot.handle_price_update`

The bot state that `handle_price_update` reads and writes, together with the
`auto_buyback` / `sell_mcap_usd` parameters that the tracker's profit-taking
check reads back off the bot.  (The source's second, shadowing
`OptimizedRentSpotBot.__init__` never initialises `blacklisted_tokens`; the
embedding supplies it as a state field, per the canonical merged data model.) -/
structure PriceBot where
  autoBuyback : Bool
  sellMcapUsd : ℚ
  blacklistedTokens : List String
  tokenTrackers : List (String × TokenTracker)
deriving Repr, DecidableEq

/-- `OptimizedRentSpotBot.handle_price_update(price_data)`: looks up the
tracker for the mint, runs `tracker.update`, and — when the decision says to
sell — only logs the signal; no sell is executed and no tracker field is
changed beyond what `update` itself did. -/
def handlePriceUpdate (bs : PriceBot) (mint : Option String) (marketCap price : ℚ) :
    PriceBot :=
  match mint with
  | none => bs
  | some m =>
    if m ∈ bs.blacklistedTokens then bs
    else
      match dictGet bs.tokenTrackers m with
      | none => bs
      | some tr =>
        let r := TokenTracker.update (some ⟨bs.autoBuyback, bs.sellMcapUsd⟩) tr marketCap price
        { bs with tokenTrackers := dictSet bs.tokenTrackers m r.1 }

/-! ### `OptimizedRentSpotBot.handle_new_token` -/

/-- Per-creator record in `wallet_trade_history`. -/
structure WalletHistory where
  totalTokens : ℕ
  successfulTokens : ℕ
  tokens : List String
deriving Repr, DecidableEq

/-- Outcome of one `handle_new_token` call, one constructor per exit path. -/
inductive TokenOutcome where
  | noMint
  | duplicate
  | mcapTooLow
  | capacity
  | traded (success : Bool)
deriving Repr, DecidableEq

/-- The `OptimizedRentSpotBot` state read and written by `handle_new_token`
and `execute_trade`.  The source's second, shadowing class definition never
initialises `attempted_tokens`, `successful_trades`, `SOL_PRICE_USD` or the
wallet-tracking dictionaries; the embedding supplies them as state fields,
per the canonical merged data model. -/
structure PipelineState where
  tradeAmount : ℚ
  priorityFee : ℚ
  minMcapUsd : ℚ
  solPriceUsd : ℚ
  attemptedTokens : List String
  activeTokens : List String
  successfulTrades : List String
  tokenTrackers : List (String × TokenTracker)
  tokenCreationTimes : List (String × ℚ)
  tokenCreators : List (String × Option String)
  walletTradeHistory : List (String × WalletHistory)
  successfulWallets : List (String × ℕ)
deriving Repr, DecidableEq

/-- `OptimizedRentSpotBot.handle_new_token(token_data)` (lines 388-456, the
non-exception path), inlining `execute_trade`'s state effects.  `tradeSuccess`
is the oracle for the external order submission; `_send_transaction` I/O is
otherwise opaque.  Note the source adds the mint to `attempted_tokens` only
after the trade-execution path; the three rejection paths return without
touching it. -/
def handleNewToken (st : PipelineState) (mint : Option String) (marketCapSol : ℚ)
    (creator : Option String) (tradeSuccess : Bool) (now : ℚ) :
    PipelineState × TokenOutcome :=
  match mint with
  | none => (st, TokenOutcome.noMint)
  | some m =>
    let usdMcap := marketCapSol * st.solPriceUsd
    let st1 : PipelineState :=
      { st with tokenCreationTimes := dictSet st.tokenCreationTimes m now,
                tokenCreators := dictSet st.tokenCreators m creator }
    let st2 : PipelineState :=
      match creator with
      | some c =>
        let h := (dictGet st1.walletTradeHistory c).getD ⟨0, 0, []⟩
        let h' : WalletHistory := { h with totalTokens := h.totalTokens + 1, tokens := setInsert h.tokens m }
        { st1 with walletTradeHistory := dictSet st1.walletTradeHistory c h' }
      | none => st1
    let isTrusted : Bool :=
      match creator with
      | some c =>
        match dictGet st2.successfulWallets c with
        | some _ =>
          let h := (dictGet st2.walletTradeHistory c).getD ⟨0, 0, []⟩
          decide ((h.successfulTokens : ℚ) / (h.totalTokens : ℚ) > 3/10)
        | none => false
      | none => false
    if m ∈ st2.attemptedTokens then (st2, TokenOutcome.duplicate)
    else if usdMcap < st2.minMcapUsd then (st2, TokenOutcome.mcapTooLow)
    else if st2.activeTokens.length ≥ 30 then (st2, TokenOutcome.capacity)
    else
      let st3 := if isTrusted then { st2 with priorityFee := st2.priorityFee * (3/2) }
                 else st2
      let tracker := { mkTokenTracker marketCapSol m with tradeAmount := st3.tradeAmount }
      let st4 := { st3 with tokenTrackers := dictSet st3.tokenTrackers m tracker }
      let st5 := if tradeSuccess
        then { st4 with activeTokens := setInsert st4.activeTokens m,
                        successfulTrades := setInsert st4.successfulTrades m }
        else st4
      ({ st5 with attemptedTokens := setInsert st5.attemptedTokens m },
       TokenOutcome.traded tradeSuccess)

/-! ### `TradeTracker` (`src/trading-bot/trade_tracker.py`)

`add_trade` is wrapped in a `try/except` that logs and swallows any
exception, so a raise part-way through leaves all mutations made before the
raising statement in place.  The embedding mirrors this by returning the
partially-mutated state at each raise point.  The raise points are:
Decimal division by zero in the drawdown block when `peak_value == 0`;
`TypeError` when a Decimal is multiplied by a percentage string
(`market_cap_entry` / `market_cap_exit` / profit recomputation / amount
scaling on a stored percentage amount); and `KeyError` when
`token_metrics[token_mint]` is missing on a sell. -/

/-- An `amount` argument of `TradeTracker.add_trade`: either a `Decimal`
quantity or a percentage string such as `"99%"`.  The source's comparison
with the literal string `"100%"` is modelled as the percentage value being
`100` (the code only ever passes canonically-formatted percent strings). -/
inductive Amount where
  | qty (q : ℚ)
  | pct (p : ℚ)
deriving Repr, DecidableEq

/-- `TradeTracker._calculate_market_cap(price, supply) = price * supply`;
`none` models the `TypeError` raised when the supply argument is a
percentage string. -/
def calcMarketCap (price : ℚ) (amount : Amount) : Option ℚ :=
  match amount with
  | Amount.qty q => some (price * q)
  | Amount.pct _ => none

/-- An entry of `active_trades`. -/
structure ActiveTrade where
  tokenMint : String
  buyPrice : ℚ
  currentPrice : ℚ
  amount : Amount
  timestamp : ℚ
  marketCapEntry : ℚ
deriving Repr, DecidableEq

/-- The `stats` sub-dictionary of a `token_metrics` entry. -/
structure TokenStats where
  totalTrades : ℕ
  profitableTrades : ℕ
  totalProfit : ℚ
  bestProfit : ℚ
  worstProfit : ℚ
  avgHoldTime : ℚ
deriving Repr, DecidableEq

/-- A `token_metrics` entry.  `exit_points`, `price_history` and
`volume_history` are initialised in the source but never written or read
afterwards and are omitted. -/
structure TokenMetrics where
  entryPoints : List (ℚ × Amount × ℚ)
  stats : TokenStats
deriving Repr, DecidableEq

/-- A `dust_positions` entry. -/
structure DustPosition where
  amount : ℚ
  buyPrice : ℚ
  lastPrice : ℚ
  timestamp : ℚ
deriving Repr, DecidableEq

/-- A `trade_history` record appended on a completed sell. -/
structure TradeRecord where
  tokenMint : String
  action : String
  price : ℚ
  amount : Amount
  profit : ℚ
  timestamp : ℚ
  entryPrice : ℚ
  holdDuration : ℚ
  marketCapExit : ℚ
deriving Repr, DecidableEq

/-- A `performance_data` record. -/
structure PerfRecord where
  timestamp : ℚ
  cumulativeProfit : ℚ
  drawdown : ℚ
  tradeCount : ℕ
  successRateVal : ℚ
deriving Repr, DecidableEq

/-- State of `TradeTracker.__init__`.  `hourly_stats` is never touched and
is omitted. -/
structure TradeTracker where
  activeTrades : List (String × ActiveTrade)
  tradeHistory : List TradeRecord
  performanceData : List PerfRecord
  cumulativeProfit : ℚ
  dustPositions : List (String × DustPosition)
  tokenMetrics : List (String × TokenMetrics)
  totalTrades : ℕ
  successfulTrades : ℕ
  failedTrades : ℕ
  avgProfitPerTrade : ℚ
  bestTradeProfit : ℚ
  worstTradeProfit : ℚ
  maxDrawdown : ℚ
  currentDrawdown : ℚ
  peakValue : ℚ
deriving Repr, DecidableEq

/-- `TradeTracker()` constructor. -/
def mkTradeTracker : TradeTracker :=
  { activeTrades := [], tradeHistory := [], performanceData := []
    cumulativeProfit := 0, dustPositions := [], tokenMetrics := []
    totalTrades := 0, successfulTrades := 0, failedTrades := 0
    avgProfitPerTrade := 0, bestTradeProfit := 0, worstTradeProfit := 0
    maxDrawdown := 0, currentDrawdown := 0, peakValue := 0 }

/-- `TradeTracker.get_success_rate()`. -/
def getSuccessRate (st : TradeTracker) : ℚ :=
  if st.totalTrades = 0 then 0
  else (st.successfulTrades : ℚ) / (st.totalTrades : ℚ) * 100

/-- The peak/drawdown block of `add_trade` (lines 95-102).  When the new
cumulative profit exceeds the previous peak, only `peak_value` is assigned;
otherwise `drawdown = (peak_value - cumulative)/peak_value` is computed —
raising (`none`) when `peak_value` is zero — and `current_drawdown` and
`max_drawdown` are updated. -/
def updateDrawdown (st : TradeTracker) : Option TradeTracker :=
  if st.cumulativeProfit > st.peakValue then
    some { st with peakValue := st.cumulativeProfit }
  else if st.peakValue = 0 then none
  else
    let drawdown := (st.peakValue - st.cumulativeProfit) / st.peakValue
    some { st with currentDrawdown := drawdown,
                   maxDrawdown := max st.maxDrawdown drawdown }

/-- The dust-position handling of the sell path (lines 107-119): only a
percentage amount triggers it; `none` models the `TypeError` of scaling a
stored percentage amount string. -/
def sellDust (st2 : TradeTracker) (tokenMint : String) (price : ℚ) (amount : Amount)
    (now : ℚ) (td : ActiveTrade) : Option TradeTracker :=
  match amount with
  | Amount.pct sp =>
    match td.amount with
    | Amount.qty q =>
      let remaining := q * (1 - sp / 100)
      let dp : DustPosition := ⟨remaining, td.buyPrice, price, now⟩
      if remaining > 0 then
        some { st2 with dustPositions := dictSet st2.dustPositions tokenMint dp }
      else some st2
    | Amount.pct _ => none
  | Amount.qty _ => some st2

/-- The sell path of `add_trade` after the drawdown block: dust handling,
per-token metrics, trade/performance records, and removal or scaling of the
active trade.  Each `| none =>` early exit models an exception caught by
the outer `try/except`, keeping the mutations made so far. -/
def sellFinish (st2 : TradeTracker) (tokenMint : String) (price : ℚ) (amount : Amount)
    (now : ℚ) (td : ActiveTrade) (p : ℚ) : TradeTracker :=
  let holdTime := (now - td.timestamp) / 3600
  match sellDust st2 tokenMint price amount now td with
  | none => st2
  | some st3 =>
    match dictGet st3.tokenMetrics tokenMint with
    | none => st3
    | some tm =>
      let s := tm.stats
      let n := s.totalTrades + 1
      let s1 : TokenStats :=
        { s with totalTrades := n, totalProfit := s.totalProfit + p,
                 profitableTrades := if p > 0 then s.profitableTrades + 1
                                     else s.profitableTrades,
                 bestProfit := max s.bestProfit p,
                 worstProfit := min s.worstProfit p }
      let s2 : TokenStats :=
        { s1 with avgHoldTime := (s1.avgHoldTime * ((n : ℚ) - 1) + holdTime) / (n : ℚ) }
      let tm' : TokenMetrics := { tm with stats := s2 }
      let st4 : TradeTracker :=
        { st3 with tokenMetrics := dictSet st3.tokenMetrics tokenMint tm' }
      match calcMarketCap price amount with
      | none => st4
      | some mcx =>
        let rec1 : TradeRecord :=
          ⟨tokenMint, "sell", price, amount, p, now, td.buyPrice, holdTime, mcx⟩
        let st5 : TradeTracker := { st4 with tradeHistory := st4.tradeHistory ++ [rec1] }
        let perf : PerfRecord :=
          ⟨now, st5.cumulativeProfit, st5.currentDrawdown, st5.totalTrades, getSuccessRate st5⟩
        let st6 : TradeTracker := { st5 with performanceData := st5.performanceData ++ [perf] }
        match amount with
        | Amount.qty _ => { st6 with activeTrades := dictErase st6.activeTrades tokenMint }
        | Amount.pct sp =>
          if sp = 100 then { st6 with activeTrades := dictErase st6.activeTrades tokenMint }
          else
            match td.amount with
            | Amount.qty q =>
              let td' : ActiveTrade := { td with amount := Amount.qty (q * (1 - sp / 100)) }
              { st6 with activeTrades := dictSet st6.activeTrades tokenMint td' }
            | Amount.pct _ => st6

/-- The sell path of `add_trade` from the aggregate updates onwards,
entered once the token has an active trade `td` and the pnl `p` is known.
A `ZeroDivisionError` in the drawdown block (`updateDrawdown = none`) is
caught by the outer `try/except`, keeping the aggregate mutations made
before it. -/
def sellRecord (st : TradeTracker) (tokenMint : String) (price : ℚ) (amount : Amount)
    (now : ℚ) (td : ActiveTrade) (p : ℚ) : TradeTracker :=
  let cum := st.cumulativeProfit + p
  let tot := st.totalTrades + 1
  let st1 : TradeTracker :=
    { st with cumulativeProfit := cum, totalTrades := tot,
              successfulTrades := if p > 0 then st.successfulTrades + 1
                                  else st.successfulTrades,
              avgProfitPerTrade := cum / (tot : ℚ),
              bestTradeProfit := max st.bestTradeProfit p,
              worstTradeProfit := min st.worstTradeProfit p }
  match updateDrawdown st1 with
  | none => st1
  | some st2 => sellFinish st2 tokenMint price amount now td p

/-- `TradeTracker.add_trade(token_mint, price, amount, action, profit)`. -/
def addTrade (st : TradeTracker) (tokenMint : String) (price : ℚ) (amount : Amount)
    (action : String) (profit : Option ℚ) (now : ℚ) : TradeTracker :=
  if action == "buy" then
    match calcMarketCap price amount with
    | none => st
    | some mce =>
      let entry : ActiveTrade := ⟨tokenMint, price, price, amount, now, mce⟩
      let st1 : TradeTracker :=
        { st with activeTrades := dictSet st.activeTrades tokenMint entry }
      let tm := (dictGet st1.tokenMetrics tokenMint).getD ⟨[], ⟨0, 0, 0, 0, 0, 0⟩⟩
      let tm' : TokenMetrics := { tm with entryPoints := tm.entryPoints ++ [(price, amount, now)] }
      { st1 with tokenMetrics := dictSet st1.tokenMetrics tokenMint tm' }
  else if action == "sell" then
    match dictGet st.activeTrades tokenMint with
    | none => st
    | some td =>
      let pOpt : Option ℚ :=
        match profit with
        | some p => some p
        | none =>
          match amount with
          | Amount.qty q => some ((price - td.buyPrice) * q)
          | Amount.pct _ => none
      match pOpt with
      | none => st
      | some p => sellRecord st tokenMint price amount now td p
  else st

/-- One recorded call to `add_trade`, with `action` `'buy'` or `'sell'`. -/
inductive TradeOp where
  | buyOp (tokenMint : String) (price : ℚ) (amount : Amount) (now : ℚ)
  | sellOp (tokenMint : String) (price : ℚ) (amount : Amount) (profit : Option ℚ) (now : ℚ)
deriving Repr, DecidableEq

/-- Apply one recorded `add_trade` call. -/
def applyOp (st : TradeTracker) : TradeOp → TradeTracker
  | TradeOp.buyOp m p a n => addTrade st m p a "buy" none n
  | TradeOp.sellOp m p a pr n => addTrade st m p a "sell" pr n

/-- Replay a sequence of `add_trade` calls. -/
def runOps (st : TradeTracker) (ops : List TradeOp) : TradeTracker :=
  ops.foldl applyOp st

/-- Every sell in the sequence has a known pnl and hits a token with an
active recorded buy at that point. -/
def validSellSeq (st : TradeTracker) : List TradeOp → Bool
  | [] => true
  | op :: rest =>
    (match op with
     | TradeOp.buyOp _ _ _ _ => true
     | TradeOp.sellOp m _ _ pr _ => (dictGet st.activeTrades m).isSome && pr.isSome) &&
    validSellSeq (applyOp st op) rest

/-- The known pnl values attached to the sell calls of a sequence. -/
def opPnls : List TradeOp → List ℚ
  | [] => []
  | TradeOp.buyOp _ _ _ _ :: rest => opPnls rest
  | TradeOp.sellOp _ _ _ (some p) _ :: rest => p :: opPnls rest
  | TradeOp.sellOp _ _ _ none _ :: rest => opPnls rest

/-- The number of sell calls in a sequence. -/
def numSells : List TradeOp → ℕ
  | [] => 0
  | TradeOp.buyOp _ _ _ _ :: rest => numSells rest
  | TradeOp.sellOp _ _ _ _ _ :: rest => numSells rest + 1

/-! ### `ProfitTracker` (`src/ubuntu/RentSpotBot/src/profit_tracker.py`) -/

/-- A recorded transaction.  The stored `transaction_url` is the constant
solscan prefix applied to the signature and is derivable, so it is not
duplicated here. -/
structure PTransaction where
  txType : String
  amount : ℚ
  fee : ℚ
  signature : String
  timestamp : ℚ
deriving Repr, DecidableEq

/-- State of `ProfitTracker.__init__`. -/
structure ProfitTracker where
  transactions : List PTransaction
  totalCosts : ℚ
  totalReturns : ℚ
deriving Repr, DecidableEq

/-- `ProfitTracker()` constructor. -/
def mkProfitTracker : ProfitTracker := ⟨[], 0, 0⟩

/-- `ProfitTracker.record_transaction(transaction_type, amount, fee, signature)`:
appends the transaction, then updates the totals according to the type
(`'buy'` adds `amount + fee` to costs; `'sell'`/`'burn'` add `amount` to
returns and `fee` to costs; any other type changes no total). -/
def recordTransaction (pt : ProfitTracker) (txType : String) (amount fee : ℚ)
    (signature : String) (now : ℚ) : ProfitTracker :=
  let tx : PTransaction := ⟨txType, amount, fee, signature, now⟩
  let pt1 : ProfitTracker := { pt with transactions := pt.transactions ++ [tx] }
  if txType == "buy" then
    { pt1 with totalCosts := pt1.totalCosts + (amount + fee) }
  else if txType == "sell" || txType == "burn" then
    { pt1 with totalReturns := pt1.totalReturns + amount,
               totalCosts := pt1.totalCosts + fee }
  else pt1

/-- The dictionary returned by `ProfitTracker.get_profit_summary()`. -/
structure ProfitSummary where
  totalCosts : ℚ
  totalReturns : ℚ
  netProfit : ℚ
  totalTransactions : ℕ
  averageCostPerTransaction : ℚ
  roiPercentage : ℚ
deriving Repr, DecidableEq

/-- `ProfitTracker.get_profit_summary()`. -/
def getProfitSummary (pt : ProfitTracker) : ProfitSummary :=
  let netProfit := pt.totalReturns - pt.totalCosts
  let n := pt.transactions.length
  { totalCosts := pt.totalCosts
    totalReturns := pt.totalReturns
    netProfit := netProfit
    totalTransactions := n
    averageCostPerTransaction := if n > 0 then pt.totalCosts / (n : ℚ) else 0
    roiPercentage := if pt.totalCosts > 0 then netProfit / pt.totalCosts * 100 else 0 }

/-- One `record_transaction` call's arguments. -/
structure TxCall where
  txType : String
  amount : ℚ
  fee : ℚ
  signature : String
  now : ℚ
deriving Repr, DecidableEq

/-- Replay a sequence of `record_transaction` calls. -/
def runPT (pt : ProfitTracker) (calls : List TxCall) : ProfitTracker :=
  calls.foldl (fun acc c => recordTransaction acc c.txType c.amount c.fee c.signature c.now) pt

/-- Spec-side formula (refinement reference, from the spec's words): the sum
of the amounts of `'sell'` and `'burn'` transactions. -/
def specTotalReturns (calls : List TxCall) : ℚ :=
  ((calls.filter (fun c => c.txType == "sell" || c.txType == "burn")).map
    (fun c => c.amount)).sum

/-- Spec-side formula (refinement reference, from the spec's words): the sum
of `amount + fee` over `'buy'` transactions plus the fees of `'sell'` and
`'burn'` transactions. -/
def specTotalCosts (calls : List TxCall) : ℚ :=
  ((calls.filter (fun c => c.txType == "buy")).map (fun c => c.amount + c.fee)).sum +
  ((calls.filter (fun c => c.txType == "sell" || c.txType == "burn")).map
    (fun c => c.fee)).sum

/-! ### `BatchBurner` (`src/ubuntu/RentSpotBot/src/batch_burner.py`) -/

/-- A `pending_spots` entry appended by `add_rent_spot`. -/
structure PendingSpot where
  tokenMint : String
  createdAt : ℚ
  transactionSignature : Option String
deriving Repr, DecidableEq

/-- A `burn_history` record.  `transaction_url` is the constant solscan
prefix applied to `signature` and is derivable, so it is not duplicated. -/
structure BurnRecord where
  timestamp : ℚ
  spotsBurned : ℕ
  spots : List (String × String)
  signature : String
deriving Repr, DecidableEq

/-- State of `BatchBurner.__init__` (keys are opaque to the modelled logic
and omitted). -/
structure BatchBurner where
  minSpotsToBurn : ℕ
  pendingSpots : List PendingSpot
  burnHistory : List BurnRecord
  profitTracker : ProfitTracker
deriving Repr, DecidableEq

/-- The `successful_burns` list accumulated by the `for spot in
self.pending_spots` loop: the (mint, signature) pairs of the spots whose
sell went through, in queue order. -/
def burnSuccesses (spots : List PendingSpot) (results : ℕ → Option String) :
    List (String × String) :=
  spots.enum.filterMap (fun ie => (results ie.1).map (fun sig => (ie.2.tokenMint, sig)))

/-- `BatchBurner.execute_batch_burn()`.  `results i` is the oracle for the
outcome of the sell issued for the `i`-th pending spot: `some sig` when the
two HTTP calls succeed with signature `sig`, `none` for any of the
`continue` failure paths.  Returns the new state together with the list of
token mints for which a sell request was issued.

The source computes `batch_size = min(len(pending_spots), 5)` but uses it
only to scale the priority fee; the `for spot in self.pending_spots` loop
then iterates over every pending spot.  On at least one success the whole
queue is cleared; on zero successes it is left untouched.  The source
formats the per-spot priority fee with `"{:.9f}"`; the exact rational
quotient is used here (the fee value plays no role in any claim). -/
def executeBatchBurn (st : BatchBurner) (results : ℕ → Option String) (now : ℚ) :
    BatchBurner × List String :=
  if st.pendingSpots.isEmpty then (st, [])
  else
    let batchSize := min st.pendingSpots.length 5
    let priorityFee : ℚ := (1 / 200000) / (batchSize : ℚ)
    let orders := st.pendingSpots.map (fun s => s.tokenMint)
    let successfulBurns := burnSuccesses st.pendingSpots results
    let pt' := successfulBurns.foldl
      (fun pt ms => recordTransaction pt "sell" (1/10000) priorityFee ms.2 now)
      st.profitTracker
    match successfulBurns with
    | [] => ({ st with profitTracker := pt' }, orders)
    | first :: _ =>
      let record : BurnRecord := ⟨now, successfulBurns.length, successfulBurns, first.2⟩
      ({ st with burnHistory := st.burnHistory ++ [record],
                 pendingSpots := [], profitTracker := pt' }, orders)

/-- `BatchBurner.add_rent_spot(spot_data)`: appends the spot and triggers
`execute_batch_burn` when the queue length reaches `min_spots_to_burn`.
Returns the new state and the mints sold by a triggered burn (empty when no
burn was triggered). -/
def addRentSpot (st : BatchBurner) (mint : String) (signature : Option String)
    (now : ℚ) (results : ℕ → Option String) : BatchBurner × List String :=
  let st1 : BatchBurner := { st with pendingSpots := st.pendingSpots ++ [⟨mint, now, signature⟩] }
  if st1.pendingSpots.length ≥ st1.minSpotsToBurn then executeBatchBurn st1 results now
  else (st1, [])

/-! ### Reconnect backoff (`src/trading-bot/optimized_websocket_client.py`,
`OptimizedWebSocketClient.start_monitoring`) -/

/-- The wait computed at line 246 of the source:
`min(300, self.reconnect_delay * (2 ** retries))`. -/
def backoffWait (reconnectDelay retries : ℕ) : ℕ :=
  min 300 (reconnectDelay * 2 ^ retries)

/-- The monitoring loop of `start_monitoring` under `n` consecutive
connection failures (each iteration's `_connect()` or
`_subscribe_initial()` fails), starting from the given `retries` counter:
each failed attempt is followed by the backoff check — if
`retries < max_retries` the loop sleeps `backoffWait` and increments
`retries`, otherwise it breaks out of the loop ("Max retries reached").
Returns the list of sleep delays in order and whether the loop gave up
within those `n` attempts. -/
def monitorFailures (maxRetries reconnectDelay : ℕ) : ℕ → ℕ → List ℕ × Bool
  | 0, _ => ([], false)
  | n + 1, retries =>
    if retries < maxRetries then
      let r := monitorFailures maxRetries reconnectDelay n (retries + 1)
      (backoffWait reconnectDelay retries :: r.1, r.2)
    else ([], true)

/-! ### Concrete states used by witnesses and counterexamples -/

/-- A `TokenTracker` as `update` leaves it after ten price updates at price
100 with strictly rising mcap (2..11): the trailing stop was set at
100 × (1 − 5/100) = 95 on the tenth update when the volatility window
filled (volatility 0, so pct clamps to the 5% minimum). -/
def c2state : TokenTracker :=
  { tokenMint := "T"
    priceHistory := [100, 100, 100, 100, 100, 100, 100, 100, 100, 100]
    mcapHistory := [2, 3, 4, 5, 6, 7, 8, 9, 10, 11]
    tradeAmount := 1/100
    initialMcap := 1
    currentMcap := 11
    entryMcap := none
    peakMcap := 11
    entryPrice := some 100
    cumulativeLoss := 0
    stopLossThreshold := 1/10
    trailingStopPrice := some 95
    trailingStopPercentage := 5
    solPriceUsd := 256
    volatilityWindow := 10
    minTrailingStop := 5
    maxTrailingStop := 20 }

/-- A `TradeTracker` as `add_trade` leaves it after a buy/sell pair with
pnl +10, a buy/sell pair with pnl −5 (peak 10, drawdown (10−5)/10 = 1/2),
and one more recorded buy of "T3"; the never-read `trade_history`,
`performance_data` and earlier `token_metrics` entries are cleared for
brevity, which no later computation reads for the "T3" sell. -/
def c5state : TradeTracker :=
  { activeTrades := [("T3", ⟨"T3", 1, 1, Amount.qty 1, 0, 1⟩)]
    tradeHistory := []
    performanceData := []
    cumulativeProfit := 5
    dustPositions := []
    tokenMetrics := [("T3", ⟨[(1, Amount.qty 1, 0)], ⟨0, 0, 0, 0, 0, 0⟩⟩)]
    totalTrades := 2
    successfulTrades := 1
    failedTrades := 0
    avgProfitPerTrade := 5/2
    bestTradeProfit := 10
    worstTradeProfit := -5
    maxDrawdown := 1/2
    currentDrawdown := 1/2
    peakValue := 10 }

/-- A fresh bot state with the default configuration of
`OptimizedRentSpotBot.__init__` ($100k minimum market cap, empty sets). -/
def c3state : PipelineState :=
  { tradeAmount := 1/100
    priorityFee := 1/1000
    minMcapUsd := 100000
    solPriceUsd := 256
    attemptedTokens := []
    activeTokens := []
    successfulTrades := []
    tokenTrackers := []
    tokenCreationTimes := []
    tokenCreators := []
    walletTradeHistory := []
    successfulWallets := [] }

/-- A `BatchBurner` configured with `min_spots_to_burn = 7` and an empty
queue. -/
def c1burner : BatchBurner :=
  { minSpotsToBurn := 7, pendingSpots := [], burnHistory := [], profitTracker := mkProfitTracker }

/-- Seven consecutive `add_rent_spot` calls on `c1burner`, every triggered
sell succeeding; the second component records the sell orders issued by
the burn triggered by the final call. -/
def c1run : BatchBurner × List String :=
  List.foldl (fun acc mint => addRentSpot acc.1 mint none 0 (fun _ => some "SIG"))
    (c1burner, []) ["A", "B", "C", "D", "E", "F", "G"]

/-! ## Theorems -/

/-! ### C8: reconnect backoff bounds -/

lemma monitorFailures_head (m d : ℕ) : ∀ n r y,
    (monitorFailures m d n r).1.head? = some y → y = backoffWait d r := by
  intro n r y
  cases n with
  | zero => simp [monitorFailures]
  | succ k =>
    by_cases h : r < m
    · simp only [monitorFailures, if_pos h, List.head?_cons, Option.some.injEq]
      intro hy; exact hy.symm
    · simp [monitorFailures, h]

lemma monitorFailures_chain (m d : ℕ) : ∀ n r,
    List.Chain' (· ≤ ·) (monitorFailures m d n r).1 := by
  intro n
  induction n with
  | zero => intro r; simp [monitorFailures]
  | succ k ih =>
    intro r
    by_cases h : r < m
    · simp only [monitorFailures, if_pos h]
      refine List.Chain'.cons' (ih (r + 1)) ?_
      intro y hy
      have hy' := monitorFailures_head m d k (r + 1) y hy
      subst hy'
      unfold backoffWait
      have hp : d * 2 ^ r ≤ d * 2 ^ (r + 1) :=
        Nat.mul_le_mul_left d (Nat.pow_le_pow_right (by norm_num) (by omega))
      omega
    · simp [monitorFailures, h]

lemma monitorFailures_bounded (m d : ℕ) : ∀ n r,
    ∀ x ∈ (monitorFailures m d n r).1, x ≤ 300 := by
  intro n
  induction n with
  | zero => intro r; simp [monitorFailures]
  | succ k ih =>
    intro r
    by_cases h : r < m
    · simp only [monitorFailures, if_pos h]
      intro x hx
      rcases List.mem_cons.mp hx with h1 | h2
      · subst h1; unfold backoffWait; omega
      · exact ih (r + 1) x h2
    · simp [monitorFailures, h]

lemma monitorFailures_gaveUp (m d : ℕ) : ∀ n r,
    (monitorFailures m d n r).2 = decide (m < r + n ∧ 0 < n) := by
  intro n
  induction n with
  | zero => intro r; simp [monitorFailures]
  | succ k ih =>
    intro r
    by_cases h : r < m
    · simp only [monitorFailures, if_pos h, ih (r + 1)]
      rw [decide_eq_decide]
      omega
    · simp only [monitorFailures, if_neg h]
      symm
      rw [decide_eq_true_iff]
      omega

/-- C8: under any number `n` of consecutive connection failures, the
reconnect delays produced by the monitoring loop are non-decreasing and
capped at the configured maximum of 300 seconds, and the loop reaches its
terminal give-up state ("Max retries reached, stopping monitoring") exactly
when the number of failed attempts exceeds the configured `max_retries`,
never before. -/
theorem C8_reconnect_backoff_bounds (m d n : ℕ) :
    List.Chain' (· ≤ ·) (monitorFailures m d n 0).1 ∧
    (∀ x ∈ (monitorFailures m d n 0).1, x ≤ 300) ∧
    (monitorFailures m d n 0).2 = decide (m < n) := by
  refine ⟨monitorFailures_chain m d n 0, monitorFailures_bounded m d n 0, ?_⟩
  rw [monitorFailures_gaveUp m d n 0, decide_eq_decide]
  omega

/-- Witness for C8 at the source's configuration (`max_retries = 3`,
`reconnect_delay = 5`) under 10 consecutive failures. -/
theorem C8_reconnect_backoff_bounds_witness :
    List.Chain' (· ≤ ·) (monitorFailures 3 5 10 0).1 ∧
    (∀ x ∈ (monitorFailures 3 5 10 0).1, x ≤ 300) ∧
    (monitorFailures 3 5 10 0).2 = decide (3 < 10) :=
  C8_reconnect_backoff_bounds 3 5 10

/-! ### C9: sell for a token with no active position leaves the tracker
unchanged -/

/-- C9: when `token_mint` has no active trade, `add_trade` with
`action='sell'` returns the tracker state completely unchanged — no field
is partially mutated. -/
theorem C9_sell_without_position_unchanged (st : TradeTracker) (m : String)
    (price : ℚ) (amount : Amount) (profit : Option ℚ) (now : ℚ)
    (h : dictGet st.activeTrades m = none) :
    addTrade st m price amount "sell" profit now = st := by
  simp [addTrade, h]

/-- Witness for C9: a sell for an unknown token on a fresh tracker. -/
theorem C9_sell_without_position_unchanged_witness :
    dictGet mkTradeTracker.activeTrades "TOKEN" = none ∧
    addTrade mkTradeTracker "TOKEN" 1 (Amount.qty 1) "sell" (some 1) 0 = mkTradeTracker :=
  ⟨by simp [mkTradeTracker, dictGet],
   C9_sell_without_position_unchanged mkTradeTracker "TOKEN" 1 (Amount.qty 1) (some 1) 0
     (by simp [mkTradeTracker, dictGet])⟩

/-! ### C10: profit summary arithmetic -/

lemma recordTransaction_totals (pt : ProfitTracker) (ty : String) (a f : ℚ)
    (s : String) (n : ℚ) :
    (recordTransaction pt ty a f s n).totalReturns =
      pt.totalReturns + (if ty == "sell" || ty == "burn" then a else 0) ∧
    (recordTransaction pt ty a f s n).totalCosts =
      pt.totalCosts + (if ty == "buy" then a + f
                       else if ty == "sell" || ty == "burn" then f else 0) := by
  by_cases h1 : (ty == "buy") = true
  · have hty : ty = "buy" := by simpa using h1
    subst hty
    simp [recordTransaction]
  · by_cases h2 : (ty == "sell" || ty == "burn") = true
    · simp [recordTransaction, h1, h2]
    · simp [recordTransaction, h1, h2]

lemma specTotalReturns_cons (c : TxCall) (cs : List TxCall) :
    specTotalReturns (c :: cs) =
      (if c.txType == "sell" || c.txType == "burn" then c.amount else 0) +
        specTotalReturns cs := by
  unfold specTotalReturns
  rw [List.filter_cons]
  split
  · simp
  · simp_all

lemma specTotalCosts_cons (c : TxCall) (cs : List TxCall) :
    specTotalCosts (c :: cs) =
      (if c.txType == "buy" then c.amount + c.fee
       else if c.txType == "sell" || c.txType == "burn" then c.fee else 0) +
        specTotalCosts cs := by
  unfold specTotalCosts
  rw [List.filter_cons, List.filter_cons]
  by_cases h1 : (c.txType == "buy") = true
  · have hty : c.txType = "buy" := by simpa using h1
    simp [hty]
    ring
  · by_cases h2 : (c.txType == "sell" || c.txType == "burn") = true
    · simp [h1, h2]
      ring
    · simp [h1, h2]

lemma runPT_totals : ∀ (calls : List TxCall) (pt : ProfitTracker),
    (runPT pt calls).totalReturns = pt.totalReturns + specTotalReturns calls ∧
    (runPT pt calls).totalCosts = pt.totalCosts + specTotalCosts calls := by
  intro calls
  induction calls with
  | nil => intro pt; simp [runPT, specTotalReturns, specTotalCosts]
  | cons c cs ih =>
    intro pt
    have hrec := recordTransaction_totals pt c.txType c.amount c.fee c.signature c.now
    have hrun : runPT pt (c :: cs) =
        runPT (recordTransaction pt c.txType c.amount c.fee c.signature c.now) cs := by
      simp [runPT]
    rw [hrun, specTotalReturns_cons, specTotalCosts_cons]
    have hih := ih (recordTransaction pt c.txType c.amount c.fee c.signature c.now)
    constructor
    · rw [hih.1, hrec.1]; ring
    · rw [hih.2, hrec.2]; ring

/-- C10: after any sequence of `record_transaction` calls, the profit
summary satisfies `net_profit = total_returns - total_costs`, where
`total_returns` is the sum of the amounts of `'sell'` and `'burn'`
transactions and `total_costs` is the sum of `amount + fee` over `'buy'`
transactions plus the fees of `'sell'` and `'burn'` transactions; and the
summary never divides by zero: `roi_percentage` is 0 when `total_costs` is
0 and `average_cost_per_transaction` is 0 when no transactions exist. -/
theorem C10_profit_summary_consistent (calls : List TxCall) :
    (getProfitSummary (runPT mkProfitTracker calls)).netProfit =
      (runPT mkProfitTracker calls).totalReturns -
        (runPT mkProfitTracker calls).totalCosts ∧
    (runPT mkProfitTracker calls).totalReturns = specTotalReturns calls ∧
    (runPT mkProfitTracker calls).totalCosts = specTotalCosts calls ∧
    ((runPT mkProfitTracker calls).totalCosts = 0 →
      (getProfitSummary (runPT mkProfitTracker calls)).roiPercentage = 0) ∧
    ((runPT mkProfitTracker calls).transactions = [] →
      (getProfitSummary (runPT mkProfitTracker calls)).averageCostPerTransaction = 0) := by
  have htot := runPT_totals calls mkProfitTracker
  refine ⟨rfl, ?_, ?_, ?_, ?_⟩
  · rw [htot.1]; simp [mkProfitTracker]
  · rw [htot.2]; simp [mkProfitTracker]
  · intro h0
    simp [getProfitSummary, h0]
  · intro hnil
    simp [getProfitSummary, hnil]

/-- Witness for C10 at the empty call sequence (zero costs, zero
transactions). -/
theorem C10_profit_summary_consistent_witness :
    (getProfitSummary (runPT mkProfitTracker [])).roiPercentage = 0 ∧
    (getProfitSummary (runPT mkProfitTracker [])).averageCostPerTransaction = 0 :=
  ⟨(C10_profit_summary_consistent []).2.2.2.1 (by simp [runPT, mkProfitTracker]),
   (C10_profit_summary_consistent []).2.2.2.2 (by simp [runPT, mkProfitTracker])⟩

/-! ### C6: ledger consistency, and C5: the drawdown block -/

lemma updateDrawdown_aggregates (st st' : TradeTracker)
    (h : updateDrawdown st = some st') :
    st'.cumulativeProfit = st.cumulativeProfit ∧
    st'.totalTrades = st.totalTrades ∧
    st'.successfulTrades = st.successfulTrades := by
  unfold updateDrawdown at h
  split at h
  · cases h; simp
  · split at h
    · cases h
    · cases h; simp

lemma sellDust_aggregates (st2 st3 : TradeTracker) (m : String) (price : ℚ)
    (a : Amount) (now : ℚ) (td : ActiveTrade)
    (h : sellDust st2 m price a now td = some st3) :
    st3.cumulativeProfit = st2.cumulativeProfit ∧
    st3.totalTrades = st2.totalTrades ∧
    st3.successfulTrades = st2.successfulTrades := by
  unfold sellDust at h
  split at h
  · split at h
    · dsimp only at h
      split at h <;> (cases h; simp)
    · cases h
  · cases h; simp

lemma sellFinish_cum (st2 : TradeTracker) (m : String) (price : ℚ)
    (a : Amount) (now : ℚ) (td : ActiveTrade) (p : ℚ) :
    (sellFinish st2 m price a now td p).cumulativeProfit = st2.cumulativeProfit := by
  unfold sellFinish
  dsimp only
  split
  · rfl
  · next st3 heq =>
    rw [← (sellDust_aggregates _ _ _ _ _ _ _ heq).1]
    repeat' split
    all_goals rfl

lemma sellFinish_tot (st2 : TradeTracker) (m : String) (price : ℚ)
    (a : Amount) (now : ℚ) (td : ActiveTrade) (p : ℚ) :
    (sellFinish st2 m price a now td p).totalTrades = st2.totalTrades := by
  unfold sellFinish
  dsimp only
  split
  · rfl
  · next st3 heq =>
    rw [← (sellDust_aggregates _ _ _ _ _ _ _ heq).2.1]
    repeat' split
    all_goals rfl

lemma sellFinish_succ (st2 : TradeTracker) (m : String) (price : ℚ)
    (a : Amount) (now : ℚ) (td : ActiveTrade) (p : ℚ) :
    (sellFinish st2 m price a now td p).successfulTrades = st2.successfulTrades := by
  unfold sellFinish
  dsimp only
  split
  · rfl
  · next st3 heq =>
    rw [← (sellDust_aggregates _ _ _ _ _ _ _ heq).2.2]
    repeat' split
    all_goals rfl

lemma sellRecord_aggregates (st : TradeTracker) (m : String) (price : ℚ)
    (a : Amount) (now : ℚ) (td : ActiveTrade) (p : ℚ) :
    (sellRecord st m price a now td p).cumulativeProfit = st.cumulativeProfit + p ∧
    (sellRecord st m price a now td p).totalTrades = st.totalTrades + 1 ∧
    (sellRecord st m price a now td p).successfulTrades =
      st.successfulTrades + (if p > 0 then 1 else 0) := by
  unfold sellRecord
  dsimp only
  split
  · refine ⟨rfl, rfl, ?_⟩
    by_cases hp : p > 0 <;> simp [hp]
  · next st2 heq =>
    have h2 := updateDrawdown_aggregates _ _ heq
    refine ⟨?_, ?_, ?_⟩
    · rw [sellFinish_cum, h2.1]
    · rw [sellFinish_tot, h2.2.1]
    · rw [sellFinish_succ, h2.2.2]
      by_cases hp : p > 0 <;> simp [hp]

lemma addTrade_buy_aggregates (st : TradeTracker) (m : String) (price : ℚ)
    (a : Amount) (pr : Option ℚ) (now : ℚ) :
    (addTrade st m price a "buy" pr now).cumulativeProfit = st.cumulativeProfit ∧
    (addTrade st m price a "buy" pr now).totalTrades = st.totalTrades ∧
    (addTrade st m price a "buy" pr now).successfulTrades = st.successfulTrades := by
  unfold addTrade
  simp only [beq_self_eq_true, if_pos]
  split <;> exact ⟨rfl, rfl, rfl⟩

lemma addTrade_sell_active (st : TradeTracker) (m : String) (price : ℚ)
    (a : Amount) (p : ℚ) (now : ℚ) (td : ActiveTrade)
    (htd : dictGet st.activeTrades m = some td) :
    addTrade st m price a "sell" (some p) now = sellRecord st m price a now td p := by
  simp [addTrade, htd]

lemma runOps_aggregates : ∀ (ops : List TradeOp) (st : TradeTracker),
    validSellSeq st ops = true →
    (runOps st ops).cumulativeProfit = st.cumulativeProfit + (opPnls ops).sum ∧
    (runOps st ops).totalTrades = st.totalTrades + numSells ops ∧
    (runOps st ops).successfulTrades =
      st.successfulTrades + ((opPnls ops).filter (fun q => 0 < q)).length ∧
    (opPnls ops).length = numSells ops := by
  intro ops
  induction ops with
  | nil => intro st h; simp [runOps, opPnls, numSells]
  | cons op rest ih =>
    intro st h
    have hrun : runOps st (op :: rest) = runOps (applyOp st op) rest := by
      simp [runOps]
    cases op with
    | buyOp m pr am nw =>
      have hrest : validSellSeq (applyOp st (TradeOp.buyOp m pr am nw)) rest = true := by
        simpa [validSellSeq] using h
      have hb : applyOp st (TradeOp.buyOp m pr am nw) = addTrade st m pr am "buy" none nw := rfl
      have hagg := addTrade_buy_aggregates st m pr am none nw
      obtain ⟨ih1, ih2, ih3, ih4⟩ := ih _ hrest
      rw [hrun]
      refine ⟨?_, ?_, ?_, ?_⟩
      · rw [ih1, hb, hagg.1]; simp [opPnls]
      · rw [ih2, hb, hagg.2.1]; simp [numSells]
      · rw [ih3, hb, hagg.2.2]; simp [opPnls]
      · simpa [opPnls, numSells] using ih4
    | sellOp m pr am prof nw =>
      have hv : ((dictGet st.activeTrades m).isSome && prof.isSome) = true ∧
          validSellSeq (applyOp st (TradeOp.sellOp m pr am prof nw)) rest = true := by
        simpa [validSellSeq, Bool.and_eq_true] using h
      obtain ⟨hact, hrest⟩ := hv
      rw [Bool.and_eq_true] at hact
      obtain ⟨td, htd⟩ := Option.isSome_iff_exists.mp hact.1
      obtain ⟨p, hp⟩ := Option.isSome_iff_exists.mp hact.2
      subst hp
      have happ : applyOp st (TradeOp.sellOp m pr am (some p) nw) =
          sellRecord st m pr am nw td p := by
        simp [applyOp, addTrade_sell_active st m pr am p nw td htd]
      have hagg := sellRecord_aggregates st m pr am nw td p
      obtain ⟨ih1, ih2, ih3, ih4⟩ := ih _ hrest
      rw [hrun]
      refine ⟨?_, ?_, ?_, ?_⟩
      · rw [ih1, happ, hagg.1]; simp [opPnls]; ring
      · rw [ih2, happ, hagg.2.1]; simp [numSells]; omega
      · rw [ih3, happ, hagg.2.2]
        simp only [opPnls, List.filter_cons]
        by_cases hp0 : (0 : ℚ) < p <;> (simp [hp0]; try omega)
      · simp only [opPnls, numSells, List.length_cons]
        omega

/-- C6: after any sequence of `add_trade` calls whose every sell carries a
known pnl and hits a token with a recorded active buy, `cumulative_profit`
equals the sum of the pnl values, `total_trades` equals the number of
sells, and `get_success_rate` returns (count of pnl > 0) / N × 100. -/
theorem C6_ledger_consistency (ops : List TradeOp)
    (h : validSellSeq mkTradeTracker ops = true) :
    (runOps mkTradeTracker ops).cumulativeProfit = (opPnls ops).sum ∧
    (runOps mkTradeTracker ops).totalTrades = numSells ops ∧
    getSuccessRate (runOps mkTradeTracker ops) =
      (((opPnls ops).filter (fun q => 0 < q)).length : ℚ) / (numSells ops : ℚ) * 100 := by
  obtain ⟨h1, h2, h3, h4⟩ := runOps_aggregates ops mkTradeTracker h
  simp only [mkTradeTracker] at h1 h2 h3
  rw [zero_add] at h1
  refine ⟨h1, by simpa using h2, ?_⟩
  unfold getSuccessRate
  by_cases h0 : (runOps mkTradeTracker ops).totalTrades = 0
  · rw [if_pos h0]
    have hn : numSells ops = 0 := by
      have h2w : (runOps mkTradeTracker ops).totalTrades = numSells ops := by simpa using h2
      omega
    have hl : opPnls ops = [] := List.length_eq_zero.mp (by rw [h4, hn])
    simp [hl, hn]
  · rw [if_neg h0]
    have hsucc : (runOps mkTradeTracker ops).successfulTrades =
        ((opPnls ops).filter (fun q => 0 < q)).length := by simpa using h3
    have htot : (runOps mkTradeTracker ops).totalTrades = numSells ops := by
      simpa using h2
    rw [hsucc, htot]

/-- Witness for C6: one buy and one profitable sell. -/
theorem C6_ledger_consistency_witness :
    validSellSeq mkTradeTracker
      [TradeOp.buyOp "A" 1 (Amount.qty 2) 0,
       TradeOp.sellOp "A" 2 (Amount.qty 2) (some 2) 0] = true ∧
    (runOps mkTradeTracker
      [TradeOp.buyOp "A" 1 (Amount.qty 2) 0,
       TradeOp.sellOp "A" 2 (Amount.qty 2) (some 2) 0]).cumulativeProfit =
      (opPnls [TradeOp.buyOp "A" 1 (Amount.qty 2) 0,
               TradeOp.sellOp "A" 2 (Amount.qty 2) (some 2) 0]).sum := by
  have hv : validSellSeq mkTradeTracker
      [TradeOp.buyOp "A" 1 (Amount.qty 2) 0,
       TradeOp.sellOp "A" 2 (Amount.qty 2) (some 2) 0] = true := by
    norm_num [validSellSeq, applyOp, addTrade, dictGet, dictSet, mkTradeTracker, calcMarketCap]
  exact ⟨hv, (C6_ledger_consistency _ hv).1⟩


/-! ### C7: exit priority -/

/-- C7: whenever the stop-loss condition (price below the set entry price
with accumulated loss at or above the threshold) holds at a price update,
the returned decision carries the stop-loss reason — even when the
target-market-cap condition (USD mcap at or above `sell_mcap_usd`, with
`entry_mcap` set) holds simultaneously — never the profit-target reason. -/
theorem C7_exit_priority (b : BotCfg) (t : TokenTracker) (mcap price e : ℚ)
    (he : t.entryPrice = some e) (he0 : e ≠ 0) (hlt : price < e)
    (hpos : 0 < t.tradeAmount)
    (hloss : t.stopLossThreshold ≤ (e - price) * t.tradeAmount)
    (hmc : optFalsy t.entryMcap = false)
    (htgt : b.sellMcapUsd ≤ mcap * t.solPriceUsd) :
    (TokenTracker.update (some b) t mcap price).2 =
      Decision.sell 99 (SellReason.stopLoss ((e - price) * t.tradeAmount)) := by
  have hpos' : 0 < (e - price) * t.tradeAmount :=
    mul_pos (by linarith) hpos
  unfold TokenTracker.update
  simp only [he, optFalsy, beq_iff_eq, he0]
  simp [he0, hlt, hpos', hloss, optFalsy]

/-- Witness for C7: entry 1, price 0.7, size 10 (loss 3 ≥ threshold 0.1)
while the USD market-cap target 100 is also met (10 × 256 = 2560 ≥ 100). -/
theorem C7_exit_priority_witness :
    (TokenTracker.update (some ⟨false, 100⟩)
        ({ mkTokenTracker 1 "T" with
            entryPrice := some 1, entryMcap := some 1, tradeAmount := 10 }) 10 (7/10)).2 =
      Decision.sell 99 (SellReason.stopLoss ((1 - 7/10) * 10)) :=
  C7_exit_priority ⟨false, 100⟩
    ({ mkTokenTracker 1 "T" with
        entryPrice := some 1, entryMcap := some 1, tradeAmount := 10 }) 10 (7/10) 1
    rfl (by norm_num) (by norm_num) (by norm_num [mkTokenTracker])
    (by norm_num [mkTokenTracker]) (by simp [optFalsy]) (by norm_num [mkTokenTracker])

/-! ### C2: the trailing-stop update rule -/

/-- C2 (amended): once `trailing_stop_price` is set (non-zero), a
recomputation leaves it unchanged while the current price does not exceed
it, and also while fewer than `volatility_window` samples exist; when the
price does exceed it (with a full window) the stop is reassigned to
`price × (1 − pct/100)` where `pct = clamp(2 × volatility, min, max)`.
The reassigned value is not compared against the previous stop, so the
stop can decrease (see the counterexample): the claimed monotonicity does
not hold. -/
theorem C2_trailing_stop_update_rule (t : TokenTracker) (price s : ℚ)
    (hs : t.trailingStopPrice = some s) (hs0 : s ≠ 0) :
    (¬ s < price → (adjustTrailingStop t price).trailingStopPrice = some s) ∧
    (t.priceHistory.length < t.volatilityWindow →
      (adjustTrailingStop t price).trailingStopPrice = some s) ∧
    (s < price → t.volatilityWindow ≤ t.priceHistory.length →
      (adjustTrailingStop t price).trailingStopPrice =
        some (price * (1 - (max t.minTrailingStop (min t.maxTrailingStop (recentVolatility t * 2))) / 100)) ∧
      (adjustTrailingStop t price).trailingStopPercentage =
        max t.minTrailingStop (min t.maxTrailingStop (recentVolatility t * 2))) := by
  refine ⟨?_, ?_, ?_⟩
  · intro hnlt
    unfold adjustTrailingStop
    split
    · exact hs
    · rw [hs]
      dsimp only
      rw [if_neg (by push_neg; exact ⟨hs0, not_lt.mp hnlt⟩)]
  · intro hlen
    unfold adjustTrailingStop
    rw [if_pos hlen, hs]
  · intro hlt hlen
    unfold adjustTrailingStop
    rw [if_neg (not_lt.mpr hlen), hs]
    dsimp only
    rw [if_pos (Or.inr hlt)]
    exact ⟨rfl, rfl⟩

/-- Witness for C2 at `c2state` with price 96 (which exceeds the stop 95):
the stop is reassigned per the update formula. -/
theorem C2_trailing_stop_update_rule_witness :
    (adjustTrailingStop c2state 96).trailingStopPrice =
      some (96 * (1 - (max c2state.minTrailingStop (min c2state.maxTrailingStop (recentVolatility c2state * 2))) / 100)) ∧
    (adjustTrailingStop c2state 96).trailingStopPercentage =
      max c2state.minTrailingStop (min c2state.maxTrailingStop (recentVolatility c2state * 2)) :=
  (C2_trailing_stop_update_rule c2state 96 95 rfl (by norm_num)).2.2
    (by norm_num) (by simp [c2state])

/-- C2 counterexample: from `c2state` (stop 95, ten 100-prices in the
window), the update with mcap 12 and price 96 reassigns the stop to
96 × (1 − 5/100) = 91.2 < 95 — `trailing_stop_price` decreases, refuting
the claimed monotonicity. -/
theorem C2_counterexample :
    c2state.trailingStopPrice = some 95 ∧
    ((TokenTracker.update none c2state 12 96).1).trailingStopPrice = some (456/5) ∧
    (456/5 : ℚ) < 95 := by
  refine ⟨rfl, ?_, by norm_num⟩
  simp [TokenTracker.update, updateTail, adjustTrailingStop, checkTrailingStop,
    checkProfitTaking, recentVolatility, optFalsy, c2state]
  norm_num


/-! ### C4: the 2x auto-buyback signal -/

lemma dictGet_dictSet_of_mem {α : Type} (l : List (String × α)) (k : String) (v v0 : α)
    (h : dictGet l k = some v0) : dictGet (dictSet l k v) k = some v := by
  unfold dictSet
  rw [h]
  simp only [Option.isSome_some, if_pos]
  induction l with
  | nil => simp [dictGet] at h
  | cons hd tl ih =>
    by_cases hk : (hd.1 == k) = true
    · have hd1 : hd.1 = k := by simpa using hk
      unfold dictGet
      rw [List.map_cons, List.find?_cons]
      simp [hd1]
    · have hk' : (hd.1 == k) = false := by simpa using hk
      unfold dictGet at h ⊢
      simp only [List.map_cons, List.find?_cons, hk'] at h ⊢
      simp only [hk', if_neg, Bool.false_eq_true, not_false_iff, ite_false] at h ⊢
      exact ih h

lemma adjustTrailingStop_short (t : TokenTracker) (p : ℚ)
    (h : t.priceHistory.length < t.volatilityWindow) :
    adjustTrailingStop t p = t := by
  unfold adjustTrailingStop
  rw [if_pos h]

lemma adjustTrailingStop_tradeAmount (t : TokenTracker) (p : ℚ) :
    (adjustTrailingStop t p).tradeAmount = t.tradeAmount := by
  unfold adjustTrailingStop
  split
  · rfl
  · dsimp only
    split
    · rfl
    · split <;> rfl

lemma checkTrailingStop_tradeAmount (t : TokenTracker) (p : ℚ) :
    ((checkTrailingStop t p).1).tradeAmount = t.tradeAmount := by
  unfold checkTrailingStop
  split
  · rfl
  · split
    · split
      · dsimp only
        split <;> rfl
      · rfl
    · rfl

lemma updateTail_tradeAmount (bot : Option BotCfg) (t : TokenTracker) (oldPeak p : ℚ) :
    ((updateTail bot t oldPeak p).1).tradeAmount = t.tradeAmount := by
  unfold updateTail
  dsimp only
  split
  · split
    · rw [show ((checkTrailingStop (adjustTrailingStop t p) p).1,
          Decision.sell 99 SellReason.trailingStop).1 =
          (checkTrailingStop (adjustTrailingStop t p) p).1 from rfl,
        checkTrailingStop_tradeAmount, adjustTrailingStop_tradeAmount]
    · rw [show ((checkTrailingStop (adjustTrailingStop t p) p).1,
          checkProfitTaking bot (checkTrailingStop (adjustTrailingStop t p) p).1).1 =
          (checkTrailingStop (adjustTrailingStop t p) p).1 from rfl,
        checkTrailingStop_tradeAmount, adjustTrailingStop_tradeAmount]
  · split
    · rw [show ((checkTrailingStop t p).1, Decision.sell 99 SellReason.trailingStop).1 =
          (checkTrailingStop t p).1 from rfl, checkTrailingStop_tradeAmount]
    · rw [show ((checkTrailingStop t p).1,
          checkProfitTaking bot (checkTrailingStop t p).1).1 =
          (checkTrailingStop t p).1 from rfl, checkTrailingStop_tradeAmount]

lemma update_tradeAmount (bot : Option BotCfg) (t : TokenTracker) (mcap price : ℚ) :
    ((TokenTracker.update bot t mcap price).1).tradeAmount = t.tradeAmount := by
  unfold TokenTracker.update
  dsimp only
  repeat' split
  all_goals try rfl
  all_goals rw [updateTail_tradeAmount]

/-- C4 (amended): for a fresh position with `entry_mcap` set and
auto-buyback enabled, a price update reaching twice the entry market cap
returns the decision {sell 50%, reason "Auto buyback triggered at …x"};
`handle_price_update` only logs that signal — the tracker stays in
`token_trackers` and its recorded `trade_amount` is unchanged (not
halved), and no sell is executed. -/
theorem C4_buyback_signal_no_size_reduction (bs : PriceBot) (m : String)
    (t : TokenTracker) (mcap price em : ℚ)
    (hm : m ∉ bs.blacklistedTokens)
    (ht : dictGet bs.tokenTrackers m = some t)
    (hab : bs.autoBuyback = true)
    (hem : t.entryMcap = some em) (hem0 : em ≠ 0)
    (hmul : 2 ≤ mcap / em)
    (hentry : t.entryPrice = none)
    (hhist : t.priceHistory.length + 1 < t.volatilityWindow)
    (hlen30 : t.priceHistory.length + 1 ≤ 30)
    (hstop : t.trailingStopPrice = none) :
    (TokenTracker.update (some ⟨bs.autoBuyback, bs.sellMcapUsd⟩) t mcap price).2 =
      Decision.sell 50 (SellReason.autoBuyback (mcap / em)) ∧
    dictGet (handlePriceUpdate bs (some m) mcap price).tokenTrackers m =
      some ((TokenTracker.update (some ⟨bs.autoBuyback, bs.sellMcapUsd⟩) t mcap price).1) ∧
    ((TokenTracker.update (some ⟨bs.autoBuyback, bs.sellMcapUsd⟩) t mcap price).1).tradeAmount =
      t.tradeAmount := by
  have hdec : (TokenTracker.update (some ⟨bs.autoBuyback, bs.sellMcapUsd⟩) t mcap price).2 =
      Decision.sell 50 (SellReason.autoBuyback (mcap / em)) := by
    unfold TokenTracker.update updateTail
    have hc30 : ¬ t.priceHistory.length + 1 > 30 := by omega
    simp [hentry, optFalsy, hc30, hhist, hstop, hem, hem0, hab, hmul,
          adjustTrailingStop_short, checkTrailingStop, checkProfitTaking]
  refine ⟨hdec, ?_, update_tradeAmount _ _ _ _⟩
  simp only [handlePriceUpdate]
  rw [if_neg hm, ht]
  exact dictGet_dictSet_of_mem _ _ _ _ ht

/-- Witness for C4: one tracked token "T" with entry mcap 100, auto-buyback
on, and a price update with mcap 200. -/
theorem C4_buyback_signal_no_size_reduction_witness :
    (TokenTracker.update (some ⟨(⟨true, 1000000, [], [("T", { mkTokenTracker 100 "T" with entryMcap := some 100 })]⟩ : PriceBot).autoBuyback, (⟨true, 1000000, [], [("T", { mkTokenTracker 100 "T" with entryMcap := some 100 })]⟩ : PriceBot).sellMcapUsd⟩) ({ mkTokenTracker 100 "T" with entryMcap := some 100 }) 200 1).2 =
      Decision.sell 50 (SellReason.autoBuyback (200 / 100)) ∧
    dictGet (handlePriceUpdate (⟨true, 1000000, [], [("T", { mkTokenTracker 100 "T" with entryMcap := some 100 })]⟩ : PriceBot) (some "T") 200 1).tokenTrackers "T" =
      some ((TokenTracker.update (some ⟨(⟨true, 1000000, [], [("T", { mkTokenTracker 100 "T" with entryMcap := some 100 })]⟩ : PriceBot).autoBuyback, (⟨true, 1000000, [], [("T", { mkTokenTracker 100 "T" with entryMcap := some 100 })]⟩ : PriceBot).sellMcapUsd⟩) ({ mkTokenTracker 100 "T" with entryMcap := some 100 }) 200 1).1) ∧
    ((TokenTracker.update (some ⟨(⟨true, 1000000, [], [("T", { mkTokenTracker 100 "T" with entryMcap := some 100 })]⟩ : PriceBot).autoBuyback, (⟨true, 1000000, [], [("T", { mkTokenTracker 100 "T" with entryMcap := some 100 })]⟩ : PriceBot).sellMcapUsd⟩) ({ mkTokenTracker 100 "T" with entryMcap := some 100 }) 200 1).1).tradeAmount =
      ({ mkTokenTracker 100 "T" with entryMcap := some 100 } : TokenTracker).tradeAmount :=
  C4_buyback_signal_no_size_reduction _ "T" _ 200 1 100
    (by simp)
    (by simp [dictGet])
    rfl rfl (by norm_num) (by norm_num)
    rfl (by norm_num [mkTokenTracker]) (by norm_num [mkTokenTracker]) rfl

/-- C4 counterexample: the update returns the 50% buyback decision, but the
recorded size afterwards is still 0.01 — not halved to 0.005 — refuting
the claimed size reduction. -/
theorem C4_counterexample :
    (TokenTracker.update (some ⟨true, 1000000⟩)
        ({ mkTokenTracker 100 "T" with entryMcap := some 100 }) 200 1).2 =
      Decision.sell 50 (SellReason.autoBuyback 2) ∧
    ((TokenTracker.update (some ⟨true, 1000000⟩)
        ({ mkTokenTracker 100 "T" with entryMcap := some 100 }) 200 1).1).tradeAmount = 1/100 ∧
    ¬ ((TokenTracker.update (some ⟨true, 1000000⟩)
        ({ mkTokenTracker 100 "T" with entryMcap := some 100 }) 200 1).1).tradeAmount = 1/100 / 2 := by
  refine ⟨?_, ?_, ?_⟩ <;>
    · simp [TokenTracker.update, updateTail, adjustTrailingStop, checkTrailingStop,
        checkProfitTaking, recentVolatility, optFalsy, mkTokenTracker]
      try norm_num


/-! ### C3: attempted-token marking -/

lemma mem_setInsert_self (l : List String) (x : String) : x ∈ setInsert l x := by
  unfold setInsert
  split
  · assumption
  · simp

lemma count_setInsert_self (l : List String) (x : String) (h : x ∉ l) :
    (setInsert l x).count x = 1 := by
  unfold setInsert
  rw [if_neg h]
  simp [List.count_append, List.count_eq_zero.mpr h]

lemma handleNewToken_duplicate (st : PipelineState) (m : String) (mcap : ℚ)
    (creator : Option String) (succ : Bool) (now : ℚ)
    (hm : m ∈ st.attemptedTokens) :
    (handleNewToken st (some m) mcap creator succ now).2 = TokenOutcome.duplicate := by
  cases creator <;> simp [handleNewToken, hm]

lemma handleNewToken_traded_attempted (st : PipelineState) (m : String) (mcap : ℚ)
    (creator : Option String) (succ : Bool) (now : ℚ)
    (h1 : m ∉ st.attemptedTokens)
    (h2 : ¬ mcap * st.solPriceUsd < st.minMcapUsd)
    (h3 : ¬ st.activeTokens.length ≥ 30) :
    (handleNewToken st (some m) mcap creator succ now).1.attemptedTokens =
      setInsert st.attemptedTokens m := by
  cases creator <;>
    · unfold handleNewToken
      dsimp only
      rw [if_neg h1, if_neg h2, if_neg h3]
      dsimp only
      repeat' split
      all_goals rfl

set_option maxRecDepth 8192 in
/-- C3 (amended): `handle_new_token` adds the mint to `attempted_tokens`
only on the path that reaches trade execution (whether the trade succeeds
or fails); the duplicate, market-cap-too-low and capacity rejections leave
`attempted_tokens` unchanged, so such a token is re-evaluated with the
same outcome rather than `duplicate`.  After a trade-execution outcome the
mint is in `attempted_tokens` exactly once and any re-evaluation yields
the duplicate rejection. -/
theorem C3_attempted_marking (st : PipelineState) (m : String) (mcap : ℚ)
    (creator : Option String) (succ : Bool) (now : ℚ) :
    ((handleNewToken st (some m) mcap creator succ now).2 = TokenOutcome.duplicate →
      (handleNewToken st (some m) mcap creator succ now).1.attemptedTokens =
        st.attemptedTokens) ∧
    ((handleNewToken st (some m) mcap creator succ now).2 = TokenOutcome.mcapTooLow →
      (handleNewToken st (some m) mcap creator succ now).1.attemptedTokens =
        st.attemptedTokens) ∧
    ((handleNewToken st (some m) mcap creator succ now).2 = TokenOutcome.capacity →
      (handleNewToken st (some m) mcap creator succ now).1.attemptedTokens =
        st.attemptedTokens) ∧
    (∀ b, (handleNewToken st (some m) mcap creator succ now).2 = TokenOutcome.traded b →
      ((handleNewToken st (some m) mcap creator succ now).1.attemptedTokens.count m = 1 ∧
       ∀ (mcap2 : ℚ) (creator2 : Option String) (succ2 : Bool) (now2 : ℚ),
         (handleNewToken (handleNewToken st (some m) mcap creator succ now).1
            (some m) mcap2 creator2 succ2 now2).2 = TokenOutcome.duplicate)) := by
  by_cases h1 : m ∈ st.attemptedTokens
  · cases creator <;> simp [handleNewToken, h1]
  · by_cases h2 : mcap * st.solPriceUsd < st.minMcapUsd
    · cases creator <;> simp [handleNewToken, h1, h2]
    · by_cases h3 : st.activeTokens.length ≥ 30
      · cases creator <;> simp [handleNewToken, h1, h2, h3]
      · have hatt := handleNewToken_traded_attempted st m mcap creator succ now h1 h2 h3
        refine ⟨?_, ?_, ?_, ?_⟩
        · cases creator <;> simp [handleNewToken, h1, h2, h3]
        · cases creator <;> simp [handleNewToken, h1, h2, h3]
        · cases creator <;> simp [handleNewToken, h1, h2, h3]
        · intro b hb
          refine ⟨?_, ?_⟩
          · rw [hatt]
            exact count_setInsert_self st.attemptedTokens m h1
          · intro mcap2 creator2 succ2 now2
            exact handleNewToken_duplicate _ m mcap2 creator2 succ2 now2
              (by rw [hatt]; exact mem_setInsert_self _ _)

/-- Witness for C3: on `c3state` a token with mcap 1000 SOL (USD 256000 ≥
100k) is traded; its mint is marked once and re-evaluation is a
duplicate. -/
theorem C3_attempted_marking_witness :
    (handleNewToken c3state (some "T") 1000 none true 0).1.attemptedTokens.count "T" = 1 ∧
    (handleNewToken (handleNewToken c3state (some "T") 1000 none true 0).1
        (some "T") 1000 none true 0).2 = TokenOutcome.duplicate := by
  have hb : (handleNewToken c3state (some "T") 1000 none true 0).2 =
      TokenOutcome.traded true := by
    simp [handleNewToken, c3state]
    norm_num
  have h := ((C3_attempted_marking c3state "T" 1000 none true 0).2.2.2 true hb)
  exact ⟨h.1, h.2 1000 none true 0⟩

/-- C3 counterexample: a token whose market cap is too low is rejected
without being added to `attempted_tokens`; a second evaluation with
unchanged thresholds yields the market-cap rejection again — not
`Reject("duplicate")` — and `attempted_tokens` still does not contain the
mint, refuting the claimed unconditional marking. -/
theorem C3_counterexample :
    (handleNewToken c3state (some "T") 1 none true 0).2 = TokenOutcome.mcapTooLow ∧
    (handleNewToken (handleNewToken c3state (some "T") 1 none true 0).1
        (some "T") 1 none true 0).2 = TokenOutcome.mcapTooLow ∧
    ¬ ((handleNewToken (handleNewToken c3state (some "T") 1 none true 0).1
        (some "T") 1 none true 0).2 = TokenOutcome.duplicate) ∧
    (handleNewToken (handleNewToken c3state (some "T") 1 none true 0).1
        (some "T") 1 none true 0).1.attemptedTokens.count "T" = 0 := by
  refine ⟨?_, ?_, ?_, ?_⟩ <;>
    · simp [handleNewToken, c3state, dictGet, dictSet, setInsert]
      try norm_num
      try decide


/-! ### C5: the drawdown block of `add_trade` -/

/-- C5 (amended): the drawdown block keeps `peak_value =
max(previous peak, cumulative_profit)`.  When the new cumulative profit
does not exceed the previous peak and the peak is non-zero,
`current_drawdown` is set to `(peak − cumulative)/peak` and `max_drawdown`
to the running maximum; when the cumulative profit sets a new peak,
`current_drawdown` and `max_drawdown` retain their previous (stale)
values — they are not reset to 0; and when the previous peak is zero the
division raises, aborting the rest of the record operation. -/
theorem C5_drawdown_update (st : TradeTracker) :
    (∀ st', updateDrawdown st = some st' →
      st'.peakValue = max st.peakValue st.cumulativeProfit) ∧
    (st.peakValue < st.cumulativeProfit →
      updateDrawdown st = some { st with peakValue := st.cumulativeProfit }) ∧
    (st.cumulativeProfit ≤ st.peakValue → st.peakValue ≠ 0 →
      updateDrawdown st = some { st with currentDrawdown := (st.peakValue - st.cumulativeProfit) / st.peakValue, maxDrawdown := max st.maxDrawdown ((st.peakValue - st.cumulativeProfit) / st.peakValue) }) ∧
    (st.cumulativeProfit ≤ st.peakValue → st.peakValue = 0 →
      updateDrawdown st = none) := by
  refine ⟨?_, ?_, ?_, ?_⟩
  · intro st' h
    unfold updateDrawdown at h
    split at h
    · next hgt =>
      cases h
      simp [max_eq_right (le_of_lt hgt)]
    · next hle =>
      push_neg at hle
      split at h
      · cases h
      · cases h
        simp [max_eq_left hle]
  · intro hlt
    unfold updateDrawdown
    rw [if_pos hlt]
  · intro hle h0
    unfold updateDrawdown
    rw [if_neg (not_lt.mpr hle), if_neg h0]
  · intro hle h0
    unfold updateDrawdown
    rw [if_neg (not_lt.mpr hle), if_pos h0]

/-- Witness for C5 at `c5state` (peak 10, cumulative 5): the non-new-peak
branch applies. -/
theorem C5_drawdown_update_witness :
    updateDrawdown c5state =
      some { c5state with currentDrawdown := (c5state.peakValue - c5state.cumulativeProfit) / c5state.peakValue, maxDrawdown := max c5state.maxDrawdown ((c5state.peakValue - c5state.cumulativeProfit) / c5state.peakValue) } :=
  (C5_drawdown_update c5state).2.2.1 (by norm_num [c5state]) (by norm_num [c5state])

/-- C5 counterexample: a sell with pnl +10 on `c5state` (peak 10,
current_drawdown 1/2 = (10−5)/10, consistent with the claim) lifts the
cumulative profit to a new peak of 15, but `current_drawdown` keeps its
stale value 1/2 instead of the claimed (15−15)/15 = 0. -/
theorem C5_counterexample :
    (addTrade c5state "T3" 1 (Amount.qty 1) "sell" (some 10) 0).cumulativeProfit = 15 ∧
    (addTrade c5state "T3" 1 (Amount.qty 1) "sell" (some 10) 0).peakValue = 15 ∧
    (addTrade c5state "T3" 1 (Amount.qty 1) "sell" (some 10) 0).currentDrawdown = 1/2 ∧
    ¬ ((1 : ℚ)/2 = (15 - 15) / 15) := by
  refine ⟨?_, ?_, ?_, by norm_num⟩ <;>
    · simp [addTrade, sellRecord, sellFinish, sellDust, updateDrawdown, dictGet,
        dictSet, dictErase, calcMarketCap, getSuccessRate, c5state]
      try norm_num

/-! ### C1: batch settlement -/

/-- C1 (amended): a triggered settlement issues a sell request for every
pending spot, in queue (FIFO) order — the computed `batch_size =
min(len, 5)` only scales the priority fee and does not bound the loop.
When at least one sell succeeds the entire queue is cleared (including
unsettled failures) and one burn record is appended; when none succeeds
the queue and history are left untouched. -/
theorem C1_settlement_processes_entire_queue (st : BatchBurner)
    (results : ℕ → Option String) (now : ℚ)
    (hne : st.pendingSpots ≠ []) :
    (executeBatchBurn st results now).2 = st.pendingSpots.map (fun s => s.tokenMint) ∧
    (burnSuccesses st.pendingSpots results = [] →
      (executeBatchBurn st results now).1.pendingSpots = st.pendingSpots ∧
      (executeBatchBurn st results now).1.burnHistory = st.burnHistory) ∧
    (burnSuccesses st.pendingSpots results ≠ [] →
      (executeBatchBurn st results now).1.pendingSpots = [] ∧
      (executeBatchBurn st results now).1.burnHistory.length =
        st.burnHistory.length + 1) := by
  have hempty : st.pendingSpots.isEmpty = false := by
    cases hps : st.pendingSpots
    · exact absurd hps hne
    · rfl
  unfold executeBatchBurn
  rw [if_neg (by simp [hempty])]
  dsimp only
  rcases hx : burnSuccesses st.pendingSpots results with _ | ⟨f, rest⟩
  · exact ⟨rfl, fun _ => ⟨rfl, rfl⟩, fun h => absurd rfl h⟩
  · exact ⟨rfl, fun h => absurd h (List.cons_ne_nil f rest), fun _ => ⟨rfl, by simp⟩⟩

/-- Witness for C1: two pending spots, every sell succeeding. -/
theorem C1_settlement_processes_entire_queue_witness :
    (executeBatchBurn ⟨5, [⟨"A", 0, none⟩, ⟨"B", 0, none⟩], [], mkProfitTracker⟩
        (fun _ => some "SIG") 0).2 =
      ([⟨"A", 0, none⟩, ⟨"B", 0, none⟩] : List PendingSpot).map (fun s => s.tokenMint) :=
  (C1_settlement_processes_entire_queue
    ⟨5, [⟨"A", 0, none⟩, ⟨"B", 0, none⟩], [], mkProfitTracker⟩
    (fun _ => some "SIG") 0 (by simp)).1

/-- C1 counterexample: with `min_spots_to_burn = 7`, the seventh
`add_rent_spot` triggers a burn that issues 7 sell orders — more than the
claimed `max_batch_size` of 5 — and clears the whole queue, leaving 0
spots pending instead of the claimed 2 excess spots. -/
theorem C1_counterexample :
    c1run.2.length = 7 ∧
    ¬ (c1run.2.length ≤ 5) ∧
    c1run.1.pendingSpots.length = 0 ∧
    ¬ (c1run.1.pendingSpots.length = 2) := by
  refine ⟨?_, ?_, ?_, ?_⟩ <;>
    · simp [c1run, c1burner, addRentSpot, executeBatchBurn, burnSuccesses,
        recordTransaction, mkProfitTracker, List.enum, List.enumFrom, List.filterMap]
      try norm_num

end SolanaBots
